import Mathlib

/-!
Verification of the phased YouTube-analytics warehouse-load pipeline and its
deterministic classification/enrichment functions, shallowly embedded from the
repository sources (src/src/youtube_collector.py, src/src/config.py,
src/src/snowflake_loader.py, src/azure-functions/function_app.py).
-/

/- ## Basic string utilities mirroring Python / SQL primitives -/

/-- Boolean substring containment on character lists, mirroring Python's
`word in combined_text` membership test for strings. -/
def hasSub (pat : List Char) : List Char → Bool
  | [] => pat.isEmpty
  | c :: rest => pat.isPrefixOf (c :: rest) || hasSub pat rest

/-- Python's `str.lower()`, restricted to the per-character lowering that is
exact on the ASCII keyword lists used by the classifier. -/
def pyLower (s : String) : String := ⟨s.data.map Char.toLower⟩

/-- `' '.join(tags)` from the source. -/
def joinSpace : List String → String
  | [] => ""
  | [t] => t
  | t :: ts => t ++ " " ++ joinSpace ts

/-- Parse a digit run, as consumed by Python's `int()`. -/
def digitsToNat (l : List Char) : Option Nat :=
  if l = [] then none
  else if l.all Char.isDigit then
    some (l.foldl (fun a c => a * 10 + (c.toNat - '0'.toNat)) 0)
  else none

/-- Python's `int(s)` on a string: optional surrounding whitespace, optional
sign, then decimal digits; anything else raises (here: `none`). -/
def pyInt? (s : String) : Option Int :=
  let t := ((s.data.dropWhile Char.isWhitespace).reverse.dropWhile Char.isWhitespace).reverse
  match t with
  | '+' :: ds => (digitsToNat ds).map Int.ofNat
  | '-' :: ds => (digitsToNat ds).map (fun n => -(n : Int))
  | ds => (digitsToNat ds).map Int.ofNat

/-- SQL `LIKE '%pat_%'`: the literal `pat` occurs somewhere with at least one
further character after it (`_` is the single-character wildcard). -/
def likeMid (pat : String) : List Char → Bool
  | [] => false
  | c :: rest => (pat.data.isPrefixOf (c :: rest) && decide (pat.data.length < rest.length + 1))
      || likeMid pat rest

/-- SQL `DATE(ts)` on an ISO-8601 timestamp string: its date component,
the first ten characters. -/
def dateOf (s : String) : String := ⟨s.data.take 10⟩

/-- Round-half-even on rationals, Python's `round` policy for the final
rounding step of the engagement computation. -/
def roundHalfEvenQ (q : ℚ) : ℤ :=
  let f := ⌊q⌋
  let r := q - f
  if r < 1/2 then f
  else if 1/2 < r then f + 1
  else if f % 2 = 0 then f else f + 1

/-- Python's `round(x, 4)` in the exact-rational model. -/
def round4 (q : ℚ) : ℚ := (roundHalfEvenQ (q * 10000) : ℚ) / 10000

/- ## Classifier (YouTubeCollector.classify_video / classify_video in the
function app) and its injected configuration -/

structure CollectorConfig where
  POSITIVE_KEYWORDS : List String
  NEGATIVE_KEYWORDS : List String
  POSITIVE_CATEGORIES : List Int
  NEGATIVE_CATEGORIES : List Int
  MIXED_CATEGORIES : List Int

/-- The configuration values of src/src/config.py (class Config). -/
def srcConfig : CollectorConfig where
  POSITIVE_KEYWORDS := ["tutorial", "guide", "learn", "teach", "education", "how-to",
    "tips", "inspire", "motivate", "success", "improve", "growth", "help",
    "advice", "solution"]
  NEGATIVE_KEYWORDS := ["drama", "exposed", "controversy", "scandal", "fail", "worst",
    "terrible", "hate", "trash", "clickbait", "rant", "angry",
    "crisis", "disaster", "warning"]
  POSITIVE_CATEGORIES := [19, 26, 27, 28, 29]
  NEGATIVE_CATEGORIES := [20, 23, 24, 25]
  MIXED_CATEGORIES := [1, 2, 10, 15, 17, 22]

/-- The configuration values of AzureFunctionConfig in function_app.py. -/
def funcConfig : CollectorConfig where
  POSITIVE_KEYWORDS := ["amazing", "great", "excellent", "best", "awesome"]
  NEGATIVE_KEYWORDS := ["terrible", "worst", "bad", "awful", "horrible"]
  POSITIVE_CATEGORIES := [28]
  NEGATIVE_CATEGORIES := [25]
  MIXED_CATEGORIES := [22, 23, 24]

structure ClassResult where
  final_sentiment : String
  classification_method : String
  positive_keyword_count : Nat
  negative_keyword_count : Nat
deriving DecidableEq, Repr

/-- `combined_text = f"(title) (description) (joined tags)".lower()`. -/
def combinedText (title description : String) (tags : List String) : String :=
  pyLower (title ++ " " ++ description ++ " " ++ joinSpace tags)

/-- `pos_count = sum(1 for word in POSITIVE_KEYWORDS if word in combined_text)`. -/
def posCount (cfg : CollectorConfig) (text : String) : Nat :=
  (cfg.POSITIVE_KEYWORDS.filter (fun w => hasSub w.data text.data)).length

/-- `neg_count = sum(1 for word in NEGATIVE_KEYWORDS if word in combined_text)`. -/
def negCount (cfg : CollectorConfig) (text : String) : Nat :=
  (cfg.NEGATIVE_KEYWORDS.filter (fun w => hasSub w.data text.data)).length

/-- The classification logic of classify_video after the category id has been
parsed to an integer. -/
def classifyCore (cfg : CollectorConfig) (category_id : Int)
    (title description : String) (tags : List String) : ClassResult :=
  let text := combinedText title description tags
  let pos := posCount cfg text
  let neg := negCount cfg text
  if category_id ∈ cfg.POSITIVE_CATEGORIES then
    ⟨"POSITIVE", "CATEGORY_BASED", pos, neg⟩
  else if category_id ∈ cfg.NEGATIVE_CATEGORIES then
    ⟨"NEGATIVE", "CATEGORY_BASED", pos, neg⟩
  else if category_id ∈ cfg.MIXED_CATEGORIES then
    if pos > neg then ⟨"POSITIVE", "KEYWORD_BASED", pos, neg⟩
    else if neg > pos then ⟨"NEGATIVE", "KEYWORD_BASED", pos, neg⟩
    else ⟨"NEUTRAL", "KEYWORD_BASED", pos, neg⟩
  else ⟨"UNKNOWN", "UNCATEGORIZED", pos, neg⟩

/-- classify_video: `category_id = int(video_data['snippet']['categoryId'])`
comes first and raises on a malformed code (modelled as `none`); then the
keyword counting and set checks run. -/
def classify_video (cfg : CollectorConfig) (categoryId : String)
    (title description : String) (tags : List String) : Option ClassResult :=
  (pyInt? categoryId).map (fun cid => classifyCore cfg cid title description tags)

/- ## EngagementScorer (calculate_engagement) -/

structure Statistics where
  viewCount : Option Nat
  likeCount : Option Nat
  commentCount : Option Nat
deriving DecidableEq, Repr

/-- calculate_engagement from the source: defaults of 0 for absent fields,
0.0 at zero views, otherwise `round(((likes + comments) / views) * 100, 4)`. -/
def calculate_engagement (statistics : Statistics) : ℚ :=
  let views := statistics.viewCount.getD 0
  let likes := statistics.likeCount.getD 0
  let comments := statistics.commentCount.getD 0
  if views = 0 then 0
  else round4 (((likes + comments : ℚ) / views) * 100)

/-- Stated from the spec's words for the refinement comparison of claim C6:
`engagement_rate = ((likes + comments) / views) * 100` rounded to 4 decimal
places, and exactly 0 when `views = 0`. -/
def engagementSpec (views likes comments : ℕ) : ℚ :=
  if views = 0 then 0
  else round4 (((likes + comments : ℚ) / views) * 100)

/- ## RecordAssembler channel handling (collect_data in function_app.py):
channel ids are collected into the `all_channels` dict (first-occurrence
order, duplicates collapse), then the deduplicated key list is sent to the
channel-detail lookup and one record is built per returned item. -/

/-- A channel item as returned by the external channel-detail lookup. -/
structure ChannelAPIItem where
  id : String
  title : String
  country : Option String
  subscriberCount : Option Nat
  videoCount : Option Nat
deriving DecidableEq, Repr

structure ChannelRecord where
  channel_id : String
  channel_title : String
  channel_country : String
  subscriber_count : Nat
  video_count : Nat
deriving DecidableEq, Repr

/-- Keys of a Python dict populated by repeated assignment: first-occurrence
order, one entry per distinct key (`all_channels[channel_id] = None`). -/
def dictKeys : List String → List String
  | [] => []
  | x :: xs => x :: (dictKeys xs).filter (fun y => y ≠ x)

/-- The channel half of collect_data: deduplicate the channel ids seen across
the video batch, look up details once, and build one ChannelRecord per item
the lookup returns (absent country defaults to UNKNOWN, absent counts to 0). -/
def collect_channel_records (videoChannelIds : List String)
    (lookup : List String → List ChannelAPIItem) : List ChannelRecord :=
  let channel_ids := dictKeys videoChannelIds
  (lookup channel_ids).map (fun ch =>
    { channel_id := ch.id
      channel_title := ch.title
      channel_country := ch.country.getD "UNKNOWN"
      subscriber_count := ch.subscriberCount.getD 0
      video_count := ch.videoCount.getD 0 })

/- ## Warehouse data model (SnowflakeLoaderService, function_app.py) -/

/-- A staged video payload value (the flat JSON record written by the
collector); `video_id` is nullable at this layer. -/
structure RawVideo where
  video_id : Option String
  channel_id : String
  category_id : Int
  title : String
  description : String
  tags : List String
  final_sentiment : String
  classification_method : String
  positive_keyword_count : Int
  negative_keyword_count : Int
  view_count : Int
  like_count : Int
  comment_count : Int
  engagement_rate : ℚ
  published_at : String
  collected_at : String
  search_keyword : String
  search_region : String
deriving DecidableEq, Repr

/-- A row of RAW.STG_VIDEOS: the raw payload tagged with its file name. -/
structure StagingRow where
  raw_json : RawVideo
  file_name : String
deriving DecidableEq, Repr

/-- A row of CORE.FACT_VIDEOS (the 19 columns of the fact insert). -/
structure FactRow where
  video_id : String
  channel_id : String
  category_id : Int
  title : String
  description : String
  tags : List String
  final_sentiment : String
  classification_method : String
  positive_keyword_count : Int
  negative_keyword_count : Int
  view_count : Int
  like_count : Int
  comment_count : Int
  engagement_rate : ℚ
  published_at : String
  collected_at : String
  collection_date : String
  search_keyword : String
  search_region : String
deriving DecidableEq, Repr

/-- A row of CORE.DIM_CHANNELS. `last_updated` is nullable: the insert branch
of the channel MERGE does not set it. -/
structure DimRow where
  channel_id : String
  channel_title : String
  channel_country : String
  subscriber_count : Int
  video_count : Int
  first_seen_date : String
  last_updated : Option String
deriving DecidableEq, Repr

/-- A raw channel payload value from a channels file; `channel_id` nullable. -/
structure RawChannel where
  channel_id : Option String
  channel_title : String
  channel_country : String
  subscriber_count : Int
  video_count : Int
deriving DecidableEq, Repr

/-- A row of TEMP_CHANNELS after the null filter and the QUALIFY dedup. -/
structure SrcChannel where
  channel_id : String
  channel_title : String
  channel_country : String
  subscriber_count : Int
  video_count : Int
deriving DecidableEq, Repr

/-- A row of ANALYTICS.AGG_DAILY_BY_REGION. -/
structure AggRow where
  analysis_date : String
  channel_country : String
  final_sentiment : String
  video_count : Int
  total_views : Int
  total_likes : Int
  total_comments : Int
  avg_engagement_rate : ℚ
deriving DecidableEq, Repr

/-- The warehouse tables mutated by the five phases. -/
structure Warehouse where
  staging : List StagingRow
  dims : List DimRow
  facts : List FactRow
  aggs : List AggRow
deriving DecidableEq, Repr

/-- The external stage's date partition: payload files tagged by name. -/
structure StageFiles where
  videoFiles : List (String × List RawVideo)
  channelFiles : List (String × List RawChannel)
deriving Repr

/- ## The five phases -/

/-- Phase 1, _load_videos_to_staging: flatten every payload whose file name
matches LIKE '%videos_%' into one staging row per record and append (never
replace) into STG_VIDEOS. -/
def load_videos_to_staging (stage : StageFiles) (w : Warehouse) : Warehouse :=
  let files := stage.videoFiles.filter (fun f => likeMid "videos" f.1.data)
  let temp := files.flatMap (fun f => f.2.map (fun v => StagingRow.mk v f.1))
  { w with staging := w.staging ++ temp }

/-- The TEMP_CHANNELS extraction before QUALIFY: rows of files matching
LIKE '%channels_%' whose channel_id IS NOT NULL, with their file names. -/
def flattenChannels (files : List (String × List RawChannel)) :
    List (String × SrcChannel) :=
  (files.filter (fun f => likeMid "channels" f.1.data)).flatMap (fun f =>
    f.2.filterMap (fun rc => rc.channel_id.map (fun cid =>
      (f.1, SrcChannel.mk cid rc.channel_title rc.channel_country
        rc.subscriber_count rc.video_count))))

/-- The row with the greatest file name among those of `l` carrying channel
id `c` (ties broken towards the earlier row), `none` when `c` does not occur:
the survivor of ROW_NUMBER() ... ORDER BY METADATA$FILENAME DESC = 1. -/
def bestRowFor (l : List (String × SrcChannel)) (c : String) : Option SrcChannel :=
  match l.filter (fun q => q.2.channel_id = c) with
  | [] => none
  | r :: rs => some ((rs.foldl (fun b q => if b.1 < q.1 then q else b) r).2)

/-- QUALIFY ROW_NUMBER() OVER (PARTITION BY channel_id
ORDER BY METADATA$FILENAME DESC) = 1: keep, per distinct channel id, the
snapshot from the lexicographically-greatest file name. -/
def pickLatest (l : List (String × SrcChannel)) : List SrcChannel :=
  (dictKeys (l.map (fun q => q.2.channel_id))).filterMap (bestRowFor l)

/-- The WHEN MATCHED branch of the DIM_CHANNELS MERGE: overwrite the mutable
fields and refresh last_updated; channel_id and first_seen_date untouched. -/
def updRow (src : List SrcChannel) (now : String) (t : DimRow) : DimRow :=
  match src.find? (fun s => s.channel_id = t.channel_id) with
  | some s =>
      { t with channel_title := s.channel_title
               channel_country := s.channel_country
               subscriber_count := s.subscriber_count
               video_count := s.video_count
               last_updated := some now }
  | none => t

/-- The WHEN NOT MATCHED branch: insert with first_seen_date = CURRENT_DATE()
and last_updated left NULL (the insert column list omits it). -/
def insRow (today : String) (s : SrcChannel) : DimRow :=
  ⟨s.channel_id, s.channel_title, s.channel_country, s.subscriber_count,
    s.video_count, today, none⟩

/-- MERGE INTO DIM_CHANNELS: matched target rows updated, unmatched source
rows inserted. -/
def dimMerge (src : List SrcChannel) (today now : String)
    (dims : List DimRow) : List DimRow :=
  dims.map (updRow src now)
    ++ (src.filter (fun s => !dims.any (fun t => t.channel_id = s.channel_id))).map
        (insRow today)

/-- Phase 2, _load_channels: build TEMP_CHANNELS from the date partition and
merge it into DIM_CHANNELS. -/
def load_channels (stage : StageFiles) (today now : String) (w : Warehouse) :
    Warehouse :=
  { w with dims := dimMerge (pickLatest (flattenChannels stage.channelFiles)) today now w.dims }

/-- The 19-column projection of a staging payload with non-null video id,
as selected by the fact MERGE's source subquery. -/
def mkFact (vid : String) (r : RawVideo) : FactRow :=
  ⟨vid, r.channel_id, r.category_id, r.title, r.description, r.tags,
    r.final_sentiment, r.classification_method, r.positive_keyword_count,
    r.negative_keyword_count, r.view_count, r.like_count, r.comment_count,
    r.engagement_rate, r.published_at, r.collected_at, dateOf r.collected_at,
    r.search_keyword, r.search_region⟩

/-- Phase 3, _load_video_facts: MERGE INTO FACT_VIDEOS from
SELECT DISTINCT ... WHERE video_id IS NOT NULL; rows whose video_id matches
no pre-statement target row are inserted, matched rows are left untouched
(no WHEN MATCHED clause). SELECT DISTINCT removes duplicates of the whole
19-column row, not duplicates of video_id. -/
def load_video_facts (w : Warehouse) : Warehouse :=
  let src := (w.staging.filterMap (fun sr =>
    sr.raw_json.video_id.map (fun vid => mkFact vid sr.raw_json))).dedup
  { w with facts :=
      w.facts ++ src.filter (fun s => !w.facts.any (fun t => t.video_id = s.video_id)) }

/-- Phase 4, _refresh_aggregations: delete today's aggregate rows, then insert
one row per (country, sentiment) observed among today's facts joined to their
dimension rows, with count, sums and average engagement. -/
def refresh_aggregations (today : String) (w : Warehouse) : Warehouse :=
  let kept := w.aggs.filter (fun a => ¬ (a.analysis_date = today))
  let rows := (w.facts.filter (fun v => v.collection_date = today)).flatMap
    (fun v => (w.dims.filter (fun ch => v.channel_id = ch.channel_id)).map
      (fun ch => (v, ch)))
  let keys := (rows.map (fun r => (r.2.channel_country, r.1.final_sentiment))).dedup
  let fresh := keys.map (fun k =>
    let grp := rows.filter (fun r =>
      r.2.channel_country = k.1 && r.1.final_sentiment = k.2)
    AggRow.mk today k.1 k.2 grp.length
      (grp.map (fun r => r.1.view_count)).sum
      (grp.map (fun r => r.1.like_count)).sum
      (grp.map (fun r => r.1.comment_count)).sum
      ((grp.map (fun r => r.1.engagement_rate)).sum / grp.length))
  { w with aggs := kept ++ fresh }

/-- Phase 5, _cleanup_staging: TRUNCATE TABLE STG_VIDEOS. -/
def cleanup_staging (w : Warehouse) : Warehouse := { w with staging := [] }

/- ## LoadOrchestrator (SnowflakeLoaderService.load_todays_data) -/

inductive Phase where
  | stagingP | channelsP | factsP | aggsP | cleanupP
deriving DecidableEq, Repr

structure RunResult where
  success : Bool
  state : Warehouse
  invoked : List Phase
deriving Repr

/-- load_todays_data: connect, then run the five phases in order, each in its
own transaction. A failing phase is rolled back (its state change is lost);
a failure of one of the first three (critical) phases returns False at once,
a failure of aggregations or cleanup is only logged and the run continues,
ending with True. `fails p = true` models the warehouse raising during
phase p; `connOk = false` models a connection failure. -/
def load_todays_data (stage : StageFiles) (today now : String)
    (connOk : Bool) (fails : Phase → Bool) (w : Warehouse) : RunResult :=
  if connOk = false then ⟨false, w, []⟩
  else if fails .stagingP then ⟨false, w, [.stagingP]⟩
  else
    let w1 := load_videos_to_staging stage w
    if fails .channelsP then ⟨false, w1, [.stagingP, .channelsP]⟩
    else
      let w2 := load_channels stage today now w1
      if fails .factsP then ⟨false, w2, [.stagingP, .channelsP, .factsP]⟩
      else
        let w3 := load_video_facts w2
        let w4 := if fails .aggsP then w3 else refresh_aggregations today w3
        let w5 := if fails .cleanupP then w4 else cleanup_staging w4
        ⟨true, w5, [.stagingP, .channelsP, .factsP, .aggsP, .cleanupP]⟩

/-- Erase the last_updated column of a dimension row (for idempotence up to
last_updated). -/
def eraseLU (r : DimRow) : DimRow := { r with last_updated := none }

/-- A warehouse with the dimension table's last_updated column erased. -/
def eraseW (w : Warehouse) : Warehouse := { w with dims := w.dims.map eraseLU }

/- ## Concrete inputs for evaluations and witnesses -/

/-- A staged payload for video v1 collected under search keyword `kw`:
identical in every field except the keyword. -/
def rawVid (kw : String) : RawVideo where
  video_id := some "v1"
  channel_id := "c1"
  category_id := 28
  title := "t"
  description := ""
  tags := []
  final_sentiment := "POSITIVE"
  classification_method := "CATEGORY_BASED"
  positive_keyword_count := 0
  negative_keyword_count := 0
  view_count := 1
  like_count := 0
  comment_count := 0
  engagement_rate := 0
  published_at := "p"
  collected_at := "2026-10-12T06:00:00"
  search_keyword := kw
  search_region := "US"

/-- A warehouse whose staging area holds the same video v1 twice, collected
under two different search keywords, over an empty fact table. -/
def dupStagingW : Warehouse :=
  ⟨[⟨rawVid "technology", "videos_a.json"⟩, ⟨rawVid "AI", "videos_b.json"⟩], [], [], []⟩

def demoChannel : RawChannel := ⟨some "c1", "T", "US", 1, 2⟩

/-- A date partition holding one videos file and one channels file. -/
def demoStage : StageFiles :=
  ⟨[("videos_a.json", [rawVid "technology"])], [("channels_a.json", [demoChannel])]⟩

/-- A date partition holding only a channels file. -/
def chOnlyStage : StageFiles := ⟨[], [("channels_a.json", [demoChannel])]⟩

def emptyW : Warehouse := ⟨[], [], [], []⟩

/- ## Helper lemmas -/

theorem roundHalfEvenQ_intCast (n : ℤ) : roundHalfEvenQ (n : ℚ) = n := by
  simp only [roundHalfEvenQ, Int.floor_intCast, sub_self]
  norm_num

theorem roundHalfEvenQ_nonneg {q : ℚ} (h : 0 ≤ q) : 0 ≤ roundHalfEvenQ q := by
  have hf : (0 : ℤ) ≤ ⌊q⌋ := Int.floor_nonneg.mpr h
  simp only [roundHalfEvenQ]
  split
  · exact hf
  split
  · omega
  split
  · exact hf
  · omega

theorem round4_intCast (n : ℤ) : round4 ((n : ℤ) : ℚ) = n := by
  rw [round4, show ((n : ℚ) * 10000) = ((n * 10000 : ℤ) : ℚ) by push_cast; ring,
    roundHalfEvenQ_intCast]
  push_cast
  ring_nf

theorem dictKeys_nodup (l : List String) : (dictKeys l).Nodup := by
  induction l with
  | nil => simp [dictKeys]
  | cons x xs ih =>
      refine List.Nodup.cons ?_ (List.Nodup.filter _ ih)
      intro hmem
      rcases List.mem_filter.mp hmem with ⟨-, hne⟩
      simp at hne

theorem mem_dictKeys (l : List String) (i : String) :
    i ∈ dictKeys l ↔ i ∈ l := by
  induction l with
  | nil => simp [dictKeys]
  | cons x xs ih =>
      simp only [dictKeys, List.mem_cons, List.mem_filter, ih, decide_not,
        Bool.not_eq_eq_eq_not, Bool.not_true, decide_eq_false_iff_not]
      by_cases h : i = x <;> simp [h]

/- ## Claim C6 -/

/-- C6: for all non-negative integer view, like and comment counts (each
defaulting to 0 when absent), calculate_engagement computes exactly the
spec's formula — ((likes + comments) / views) * 100 rounded to 4 decimal
places — returns exactly 0 whenever views = 0, and on
views = 200, likes = 10, comments = 10 returns 10.0. -/
theorem c6_engagement_matches_spec :
    (∀ st : Statistics, calculate_engagement st =
        engagementSpec (st.viewCount.getD 0) (st.likeCount.getD 0) (st.commentCount.getD 0))
    ∧ (∀ st : Statistics, st.viewCount.getD 0 = 0 → calculate_engagement st = 0)
    ∧ calculate_engagement ⟨some 200, some 10, some 10⟩ = 10 := by
  refine ⟨fun st => rfl, fun st h => by simp [calculate_engagement, h], ?_⟩
  norm_num [calculate_engagement, round4, roundHalfEvenQ]

/-- Witness for C6 at concrete inputs: zero views (present or absent) give 0. -/
theorem c6_witness :
    calculate_engagement ⟨some 0, some 5, some 7⟩ = 0
    ∧ calculate_engagement ⟨none, some 5, some 7⟩ = 0 :=
  ⟨c6_engagement_matches_spec.2.1 _ rfl, c6_engagement_matches_spec.2.1 _ rfl⟩

/- ## Claim C10 -/

/-- C10 as written is refuted: with views = 2000001, likes = 2000002,
comments = 0 we have likes + comments > views, yet the rounded engagement
rate is exactly 100 (100 + 100/2000001 rounds down at 4 decimals), so
"whenever likes + comments > views the returned engagement_rate exceeds 100"
is false. -/
theorem c10_counterexample :
    calculate_engagement ⟨some 2000001, some 2000002, some 0⟩ = 100
    ∧ 2000002 + 0 > 2000001 := by
  constructor
  · norm_num [calculate_engagement, round4, roundHalfEvenQ, Int.floor_eq_iff]
  · norm_num

/-- C10 amended: calculate_engagement is total on statistics with
non-negative counts and never negative; it is not clamped to [0, 100] and
has no upper bound (views = 1, likes = 2, comments = 0 yields 200.0), though
4-decimal rounding can map a ratio slightly above 100 back to exactly 100. -/
theorem c10_amended_unbounded_nonneg :
    (∀ st : Statistics, 0 ≤ calculate_engagement st)
    ∧ calculate_engagement ⟨some 1, some 2, some 0⟩ = 200
    ∧ (∀ B : ℕ, ∃ st : Statistics, (B : ℚ) < calculate_engagement st) := by
  refine ⟨?_, ?_, ?_⟩
  · intro st
    simp only [calculate_engagement]
    split
    · exact le_refl 0
    · rw [round4]
      have h0 : (0 : ℚ) ≤ ((st.likeCount.getD 0 + st.commentCount.getD 0 : ℚ) /
          (st.viewCount.getD 0 : ℚ)) * 100 * 10000 := by positivity
      have := roundHalfEvenQ_nonneg h0
      positivity
  · norm_num [calculate_engagement, round4, roundHalfEvenQ]
  · intro B
    refine ⟨⟨some 1, some (B + 1), some 0⟩, ?_⟩
    have h1 : calculate_engagement ⟨some 1, some (B + 1), some 0⟩ =
        round4 ((100 * (B + 1) : ℤ) : ℚ) := by
      simp only [calculate_engagement, Option.getD_some]
      rw [if_neg (by norm_num)]
      congr 1
      push_cast
      ring
    rw [h1, round4_intCast]
    push_cast
    linarith [Nat.cast_nonneg (α := ℚ) B]

/- ## Claim C4 -/

/-- C4: the classifier applies the set checks in the fixed order positive,
negative, mixed: a code in the positive set yields POSITIVE/CATEGORY_BASED
regardless of keyword content; a code in the negative set yields
NEGATIVE/CATEGORY_BASED; a code in the mixed set yields KEYWORD_BASED with
sentiment POSITIVE iff pos_count > neg_count, NEGATIVE iff
neg_count > pos_count, NEUTRAL on any tie including 0/0; any other code
yields UNKNOWN/UNCATEGORIZED. Stated for the configured category sets of
src/src/config.py, which are disjoint. -/
theorem c4_classifier_order (cid : Int) (title description : String) (tags : List String) :
    (cid ∈ srcConfig.POSITIVE_CATEGORIES →
      classifyCore srcConfig cid title description tags =
        ⟨"POSITIVE", "CATEGORY_BASED",
          posCount srcConfig (combinedText title description tags),
          negCount srcConfig (combinedText title description tags)⟩)
    ∧ (cid ∈ srcConfig.NEGATIVE_CATEGORIES →
      classifyCore srcConfig cid title description tags =
        ⟨"NEGATIVE", "CATEGORY_BASED",
          posCount srcConfig (combinedText title description tags),
          negCount srcConfig (combinedText title description tags)⟩)
    ∧ (cid ∈ srcConfig.MIXED_CATEGORIES →
      (classifyCore srcConfig cid title description tags).classification_method = "KEYWORD_BASED"
      ∧ ((classifyCore srcConfig cid title description tags).final_sentiment = "POSITIVE" ↔
          posCount srcConfig (combinedText title description tags) >
            negCount srcConfig (combinedText title description tags))
      ∧ ((classifyCore srcConfig cid title description tags).final_sentiment = "NEGATIVE" ↔
          negCount srcConfig (combinedText title description tags) >
            posCount srcConfig (combinedText title description tags))
      ∧ (posCount srcConfig (combinedText title description tags) =
            negCount srcConfig (combinedText title description tags) →
          (classifyCore srcConfig cid title description tags).final_sentiment = "NEUTRAL"))
    ∧ (cid ∉ srcConfig.POSITIVE_CATEGORIES → cid ∉ srcConfig.NEGATIVE_CATEGORIES →
        cid ∉ srcConfig.MIXED_CATEGORIES →
      classifyCore srcConfig cid title description tags =
        ⟨"UNKNOWN", "UNCATEGORIZED",
          posCount srcConfig (combinedText title description tags),
          negCount srcConfig (combinedText title description tags)⟩) := by
  refine ⟨?_, ?_, ?_, ?_⟩
  · intro h
    simp only [classifyCore, if_pos h]
  · intro h
    have hp : cid ∉ srcConfig.POSITIVE_CATEGORIES := by
      simp only [srcConfig] at h ⊢
      fin_cases h <;> decide
    simp only [classifyCore, if_neg hp, if_pos h]
  · intro h
    have hp : cid ∉ srcConfig.POSITIVE_CATEGORIES := by
      simp only [srcConfig] at h ⊢
      fin_cases h <;> decide
    have hn : cid ∉ srcConfig.NEGATIVE_CATEGORIES := by
      simp only [srcConfig] at h ⊢
      fin_cases h <;> decide
    simp only [classifyCore, if_neg hp, if_neg hn, if_pos h]
    refine ⟨by split <;> [rfl; (split <;> rfl)], ?_, ?_, ?_⟩
    · split
      · simp_all <;> omega
      · split <;> simp_all <;> omega
    · split
      · simp_all <;> omega
      · split <;> simp_all <;> omega
    · intro he
      split
      · omega
      · split
        · omega
        · rfl
  · intro h1 h2 h3
    simp only [classifyCore, if_neg h1, if_neg h2, if_neg h3]

/-- Witness for C4: one concrete code from each configured set and one from
none of them, with empty text (keyword counts 0/0). -/
theorem c4_witness :
    classifyCore srcConfig 19 "" "" [] = ⟨"POSITIVE", "CATEGORY_BASED", 0, 0⟩
    ∧ classifyCore srcConfig 20 "" "" [] = ⟨"NEGATIVE", "CATEGORY_BASED", 0, 0⟩
    ∧ (classifyCore srcConfig 22 "" "" []).classification_method = "KEYWORD_BASED"
    ∧ (classifyCore srcConfig 22 "" "" []).final_sentiment = "NEUTRAL"
    ∧ classifyCore srcConfig 3 "" "" [] = ⟨"UNKNOWN", "UNCATEGORIZED", 0, 0⟩ := by
  have hp : posCount srcConfig (combinedText "" "" []) = 0 := by decide
  have hn : negCount srcConfig (combinedText "" "" []) = 0 := by decide
  have h1 := (c4_classifier_order 19 "" "" []).1 (by decide)
  have h2 := (c4_classifier_order 20 "" "" []).2.1 (by decide)
  have h3 := (c4_classifier_order 22 "" "" []).2.2.1 (by decide)
  have h4 := (c4_classifier_order 3 "" "" []).2.2.2 (by decide) (by decide) (by decide)
  exact ⟨by rw [h1, hp, hn], by rw [h2, hp, hn], h3.1,
    h3.2.2.2 (by rw [hp, hn]), by rw [h4, hp, hn]⟩

/- ## Claim C7 -/

/-- C7 as written is refuted: a malformed category code is not treated as
belonging to no configured set — classify_video first runs
int(categoryId), which raises on the non-numeric code "abc" (modelled as
`none`) instead of returning UNKNOWN/UNCATEGORIZED. -/
theorem c7_counterexample :
    classify_video srcConfig "abc" "t" "d" ["x"] = none := by decide

/-- C7 amended: the classifier is a pure function with a single failure
mode — a category code that does not parse as an integer, which raises
(models to `none`); an integer category code lying in none of the
configured sets is the case that yields UNKNOWN/UNCATEGORIZED rather than
an error. -/
theorem c7_amended_failure_mode (categoryId title description : String) (tags : List String) :
    (pyInt? categoryId = none →
      classify_video srcConfig categoryId title description tags = none)
    ∧ (∀ n : Int, pyInt? categoryId = some n →
        n ∉ srcConfig.POSITIVE_CATEGORIES → n ∉ srcConfig.NEGATIVE_CATEGORIES →
        n ∉ srcConfig.MIXED_CATEGORIES →
        (classify_video srcConfig categoryId title description tags).map
            (fun r => (r.final_sentiment, r.classification_method))
          = some ("UNKNOWN", "UNCATEGORIZED")) := by
  constructor
  · intro h
    simp [classify_video, h]
  · intro n h h1 h2 h3
    simp [classify_video, h, classifyCore, h1, h2, h3]

/-- Witness for C7 at concrete inputs: "zz" does not parse and errors;
"99" parses to a code in no configured set and yields UNKNOWN. -/
theorem c7_witness :
    classify_video srcConfig "zz" "" "" [] = none
    ∧ (classify_video srcConfig "99" "" "" []).map
        (fun r => (r.final_sentiment, r.classification_method))
      = some ("UNKNOWN", "UNCATEGORIZED") :=
  ⟨(c7_amended_failure_mode "zz" "" "" []).1 (by decide),
    (c7_amended_failure_mode "99" "" "" []).2 99 (by decide) (by decide)
      (by decide) (by decide)⟩

/- ## Claim C8 -/

/-- C8 as written is refuted: when the channel-detail lookup fails (returns
no items), the assembled channel list is empty, so the channel id "c1" seen
in the video batch has no ChannelRecord at all — the list is not
"exactly one ChannelRecord per distinct channel identifier ... even when a
channel-detail lookup fails". -/
theorem c8_counterexample :
    collect_channel_records ["c1"] (fun _ => []) = [] ∧ "c1" ∈ ["c1"] :=
  ⟨rfl, by decide⟩

/-- C8 amended: channel identifiers are deduplicated (first-occurrence
order) into a single request batch before the channel-detail lookup, and
whenever the lookup returns exactly one item per requested identifier, the
returned list has exactly one well-formed ChannelRecord per distinct
channel identifier seen in the video batch; but when the lookup fails or
omits an identifier, that channel is simply missing from the result. -/
theorem c8_amended_dedup (videoChannelIds : List String)
    (lookup : List String → List ChannelAPIItem) :
    (dictKeys videoChannelIds).Nodup
    ∧ (∀ i : String, i ∈ dictKeys videoChannelIds ↔ i ∈ videoChannelIds)
    ∧ ((lookup (dictKeys videoChannelIds)).map (fun ch => ch.id) = dictKeys videoChannelIds →
        (collect_channel_records videoChannelIds lookup).map (fun r => r.channel_id)
          = dictKeys videoChannelIds) := by
  refine ⟨dictKeys_nodup _, mem_dictKeys _, ?_⟩
  intro h
  simpa [collect_channel_records, List.map_map, Function.comp] using h

/-- Witness for C8: duplicated id "c1" in the batch, a lookup echoing one
item per requested id; the record list carries exactly the deduplicated
ids. -/
theorem c8_witness :
    (collect_channel_records ["c1", "c2", "c1"]
        (fun ks => ks.map (fun i => ⟨i, "t", none, none, none⟩))).map
        (fun r => r.channel_id)
      = dictKeys ["c1", "c2", "c1"] :=
  (c8_amended_dedup ["c1", "c2", "c1"]
    (fun ks => ks.map (fun i => ⟨i, "t", none, none, none⟩))).2.2 (by decide)

/- ## DimensionMerger lemmas -/

theorem foldl_pick_mem (xs : List (String × SrcChannel)) (b : String × SrcChannel) :
    xs.foldl (fun b q => if b.1 < q.1 then q else b) b = b
    ∨ xs.foldl (fun b q => if b.1 < q.1 then q else b) b ∈ xs := by
  induction xs generalizing b with
  | nil => exact Or.inl rfl
  | cons x xs ih =>
      rcases ih (if b.1 < x.1 then x else b) with h | h
      · rw [List.foldl_cons, h]
        split
        · exact Or.inr (List.mem_cons_self _ _)
        · exact Or.inl rfl
      · exact Or.inr (List.mem_cons_of_mem _ h)

theorem bestRowFor_id (l : List (String × SrcChannel)) (c : String) (r : SrcChannel)
    (h : bestRowFor l c = some r) : r.channel_id = c := by
  unfold bestRowFor at h
  cases hf : l.filter (fun q => q.2.channel_id = c) with
  | nil => rw [hf] at h; cases h
  | cons x xs =>
      rw [hf] at h
      have hx : x ∈ l.filter (fun q => q.2.channel_id = c) := by
        rw [hf]; exact List.mem_cons_self _ _
      have hmem : xs.foldl (fun b q => if b.1 < q.1 then q else b) x ∈
          l.filter (fun q => q.2.channel_id = c) := by
        rcases foldl_pick_mem xs x with he | he
        · rw [he]; exact hx
        · rw [hf]; exact List.mem_cons_of_mem _ he
      have hid := (List.mem_filter.mp hmem).2
      simp only [decide_eq_true_eq] at hid
      simpa [← Option.some_inj.mp h] using hid

theorem filterMap_map_eq_filter {α β : Type} (f : α → Option β) (g : β → α)
    (hfg : ∀ a b, f a = some b → g b = a) (l : List α) :
    (l.filterMap f).map g = l.filter (fun a => (f a).isSome) := by
  induction l with
  | nil => rfl
  | cons a l ih =>
      cases hf : f a with
      | none => simp [List.filterMap_cons, hf, ih]
      | some b =>
          simp only [List.filterMap_cons, hf, List.map_cons, ih, List.filter_cons]
          rw [hfg a b hf]
          simp [hf]

theorem pickLatest_ids_nodup (l : List (String × SrcChannel)) :
    ((pickLatest l).map (fun s => s.channel_id)).Nodup := by
  rw [pickLatest, filterMap_map_eq_filter (bestRowFor l) (fun s => s.channel_id)
    (fun c r h => bestRowFor_id l c r h)]
  exact List.Nodup.filter _ (dictKeys_nodup _)

theorem updRow_channel_id (src : List SrcChannel) (now : String) (t : DimRow) :
    (updRow src now t).channel_id = t.channel_id := by
  unfold updRow
  cases h : src.find? (fun s => s.channel_id = t.channel_id) <;> simp

theorem updRow_idem (src : List SrcChannel) (now : String) (t : DimRow) :
    updRow src now (updRow src now t) = updRow src now t := by
  cases h : src.find? (fun s => s.channel_id = t.channel_id) with
  | none => simp only [updRow, h]
  | some s => simp only [updRow, h]

theorem find?_eq_some_self (src : List SrcChannel)
    (h : (src.map (fun s => s.channel_id)).Nodup) (s : SrcChannel) (hs : s ∈ src) :
    src.find? (fun q => q.channel_id = s.channel_id) = some s := by
  induction src with
  | nil => cases hs
  | cons x xs ih =>
      simp only [List.map_cons, List.nodup_cons] at h
      rcases List.mem_cons.mp hs with rfl | hs'
      · exact List.find?_cons_of_pos _ (by simp)
      · have hx : ¬ (x.channel_id = s.channel_id) := by
          intro he
          exact h.1 (he ▸ List.mem_map_of_mem _ hs')
        rw [List.find?_cons_of_neg _ (by simpa using hx)]
        exact ih h.2 hs'

theorem dimMerge_any_of_mem (src : List SrcChannel) (today now : String)
    (dims : List DimRow) (s : SrcChannel) (hs : s ∈ src) :
    (dimMerge src today now dims).any (fun t => t.channel_id = s.channel_id) = true := by
  rw [List.any_eq_true]
  by_cases hd : dims.any (fun t => t.channel_id = s.channel_id) = true
  · rcases List.any_eq_true.mp hd with ⟨t, ht, hts⟩
    refine ⟨updRow src now t, List.mem_append_left _ (List.mem_map_of_mem _ ht), ?_⟩
    simpa [updRow_channel_id] using hts
  · refine ⟨insRow today s, ?_, by simp [insRow]⟩
    apply List.mem_append_right
    refine List.mem_map_of_mem _ ?_
    rw [List.mem_filter]
    exact ⟨hs, by simp [hd]⟩

theorem dimMerge_idem (src : List SrcChannel) (d t : String) (dims : List DimRow)
    (h : (src.map (fun s => s.channel_id)).Nodup) :
    (dimMerge src d t (dimMerge src d t dims)).map eraseLU
      = (dimMerge src d t dims).map eraseLU := by
  have hfilter : src.filter
      (fun s => !(dimMerge src d t dims).any (fun t' => t'.channel_id = s.channel_id)) = [] := by
    rw [List.filter_eq_nil_iff]
    intro s hs
    simp [dimMerge_any_of_mem src d t dims s hs]
  have key : ∀ D : List DimRow,
      src.filter (fun s => !D.any (fun t' => t'.channel_id = s.channel_id)) = [] →
      dimMerge src d t D = D.map (updRow src t) := by
    intro D hD
    rw [dimMerge, hD, List.map_nil, List.append_nil]
  rw [key (dimMerge src d t dims) hfilter]
  rw [dimMerge]
  simp only [List.map_append, List.map_map]
  congr 1
  · exact List.map_congr_left (fun r _ => by
      simp only [Function.comp]
      rw [updRow_idem])
  · refine List.map_congr_left (fun s hsF => ?_)
    have hs : s ∈ src := (List.mem_filter.mp hsF).1
    have hf : src.find? (fun q => q.channel_id = s.channel_id) = some s :=
      find?_eq_some_self src h s hs
    simp only [Function.comp, updRow, insRow, eraseLU, hf]

/- ## Claim C5 -/

/-- C5 as written is refuted: DimensionMerger is not idempotent on the full
row including last_updated. From an empty dimension table, one run inserts
channel c1 with last_updated NULL (the insert branch does not set it); a
second run with the identical input matches and refreshes last_updated to
the current timestamp, so the two states differ. -/
theorem c5_counterexample :
    load_channels chOnlyStage "2026-10-12" "T"
        (load_channels chOnlyStage "2026-10-12" "T" emptyW)
      ≠ load_channels chOnlyStage "2026-10-12" "T" emptyW := by decide

/-- C5 amended: with the current date and timestamp held fixed,
DimensionMerger is idempotent up to the last_updated column: applying it
twice with an identical channels input yields the same dimension-table
state as applying it once on every column except last_updated (the second
application sets last_updated — previously NULL — on rows the first
application inserted). -/
theorem c5_dimension_merge_idem_mod_last_updated
    (stage : StageFiles) (today now : String) (w : Warehouse) :
    eraseW (load_channels stage today now (load_channels stage today now w))
      = eraseW (load_channels stage today now w) := by
  have hnd := pickLatest_ids_nodup (flattenChannels stage.channelFiles)
  simp only [load_channels, eraseW]
  rw [dimMerge_idem _ _ _ _ hnd]

/- ## Claim C9 -/

/-- C9: a DimensionMerger run upserts: a dimension row whose channel id has
a matching source snapshot survives with only the mutable fields (title,
country, subscriber count, video count) overwritten and last_updated
refreshed — channel_id and first_seen_date unchanged; a row with no
matching snapshot survives verbatim; a source snapshot whose channel id is
absent from the table is inserted with first_seen_date set to the current
date (and last_updated NULL); and every row of the result arises in one of
these ways. -/
theorem c9_dim_merge_upsert_frame (src : List SrcChannel) (today now : String)
    (dims : List DimRow) :
    (∀ r ∈ dims, ∀ s : SrcChannel,
        src.find? (fun q => q.channel_id = r.channel_id) = some s →
        (⟨r.channel_id, s.channel_title, s.channel_country, s.subscriber_count,
            s.video_count, r.first_seen_date, some now⟩ : DimRow)
          ∈ dimMerge src today now dims)
    ∧ (∀ r ∈ dims, src.find? (fun q => q.channel_id = r.channel_id) = none →
        r ∈ dimMerge src today now dims)
    ∧ (∀ s ∈ src, (∀ r ∈ dims, ¬ (r.channel_id = s.channel_id)) →
        (⟨s.channel_id, s.channel_title, s.channel_country, s.subscriber_count,
            s.video_count, today, none⟩ : DimRow) ∈ dimMerge src today now dims)
    ∧ (∀ x ∈ dimMerge src today now dims,
        (∃ r ∈ dims, x = updRow src now r) ∨ ∃ s ∈ src, x = insRow today s) := by
  refine ⟨?_, ?_, ?_, ?_⟩
  · intro r hr s hf
    have : updRow src now r =
        ⟨r.channel_id, s.channel_title, s.channel_country, s.subscriber_count,
          s.video_count, r.first_seen_date, some now⟩ := by
      simp only [updRow, hf]
    exact this ▸ List.mem_append_left _ (List.mem_map_of_mem _ hr)
  · intro r hr hf
    have : updRow src now r = r := by simp only [updRow, hf]
    exact this ▸ List.mem_append_left _ (List.mem_map_of_mem _ hr)
  · intro s hs hno
    apply List.mem_append_right
    refine List.mem_map_of_mem _ ?_
    rw [List.mem_filter]
    refine ⟨hs, ?_⟩
    simp only [Bool.not_eq_eq_eq_not, Bool.not_true, List.any_eq_false]
    intro r hr
    simpa using hno r hr
  · intro x hx
    rcases List.mem_append.mp hx with hx | hx
    · rcases List.mem_map.mp hx with ⟨r, hr, he⟩
      exact Or.inl ⟨r, hr, he.symm⟩
    · rcases List.mem_map.mp hx with ⟨s, hsF, he⟩
      exact Or.inr ⟨s, (List.mem_filter.mp hsF).1, he.symm⟩

/-- Witness for C9: a matched channel keeps its first_seen_date while the
mutable fields and last_updated are overwritten; an unmatched snapshot is
inserted with the current date and NULL last_updated. -/
theorem c9_witness :
    (⟨"c1", "T2", "GB", 5, 6, "2026-01-01", some "T"⟩ : DimRow)
      ∈ dimMerge [⟨"c1", "T2", "GB", 5, 6⟩] "2026-10-12" "T"
          [⟨"c1", "T1", "US", 1, 2, "2026-01-01", none⟩]
    ∧ (⟨"c2", "X", "CA", 3, 4, "2026-10-12", none⟩ : DimRow)
      ∈ dimMerge [⟨"c2", "X", "CA", 3, 4⟩] "2026-10-12" "T" [] :=
  ⟨(c9_dim_merge_upsert_frame [⟨"c1", "T2", "GB", 5, 6⟩] "2026-10-12" "T"
        [⟨"c1", "T1", "US", 1, 2, "2026-01-01", none⟩]).1
      ⟨"c1", "T1", "US", 1, 2, "2026-01-01", none⟩ (by decide)
      ⟨"c1", "T2", "GB", 5, 6⟩ (by decide),
    (c9_dim_merge_upsert_frame [⟨"c2", "X", "CA", 3, 4⟩] "2026-10-12" "T" []).2.2.1
      ⟨"c2", "X", "CA", 3, 4⟩ (by decide) (by decide)⟩

/- ## Claim C3 -/

/-- C3 is refuted by the code (code bug): the fact MERGE deduplicates with
SELECT DISTINCT over the whole 19-column row rather than per video_id, so a
staging area holding the same video v1 under two different search keywords
(rows identical except search_keyword) inserts two fact rows with the same
video identifier into an empty fact table. -/
theorem c3_fact_merge_duplicate_video_ids :
    ((load_video_facts dupStagingW).facts.filter
        (fun r => r.video_id = "v1")).length = 2 := by decide

/- ## Claim C1 -/

/-- C1: in a run where all three critical phases (StagingLoader,
DimensionMerger, FactMerger) succeed and a non-critical phase
(AggregateRefresher or StagingCleaner) fails, the orchestrator rolls back
only the failed phase's transaction (the final state is the composition of
the phases with each failed non-critical phase contributing nothing),
continues to the next phase (all five phases are attempted), and still
reports overall run success. -/
theorem c1_noncritical_failure_still_succeeds
    (stage : StageFiles) (today now : String) (fails : Phase → Bool) (w : Warehouse)
    (h1 : fails .stagingP = false) (h2 : fails .channelsP = false)
    (h3 : fails .factsP = false)
    (h4 : fails .aggsP = true ∨ fails .cleanupP = true) :
    (load_todays_data stage today now true fails w).success = true
    ∧ (load_todays_data stage today now true fails w).invoked =
        [.stagingP, .channelsP, .factsP, .aggsP, .cleanupP]
    ∧ (load_todays_data stage today now true fails w).state =
        (let w3 := load_video_facts
          (load_channels stage today now (load_videos_to_staging stage w))
         let w4 := if fails .aggsP then w3 else refresh_aggregations today w3
         if fails .cleanupP then w4 else cleanup_staging w4) := by
  simp [load_todays_data, h1, h2, h3]

/-- Witness for C1: a concrete run in which only AggregateRefresher fails. -/
theorem c1_witness :
    (load_todays_data demoStage "2026-10-12" "T" true
        (fun p => p == Phase.aggsP) emptyW).success = true
    ∧ (load_todays_data demoStage "2026-10-12" "T" true
        (fun p => p == Phase.aggsP) emptyW).invoked =
        [.stagingP, .channelsP, .factsP, .aggsP, .cleanupP]
    ∧ (load_todays_data demoStage "2026-10-12" "T" true
        (fun p => p == Phase.aggsP) emptyW).state =
        (let w3 := load_video_facts
          (load_channels demoStage "2026-10-12" "T"
            (load_videos_to_staging demoStage emptyW))
         let w4 := if (Phase.aggsP == Phase.aggsP) then w3
                   else refresh_aggregations "2026-10-12" w3
         if (Phase.cleanupP == Phase.aggsP) then w4 else cleanup_staging w4) :=
  c1_noncritical_failure_still_succeeds demoStage "2026-10-12" "T"
    (fun p => p == Phase.aggsP) emptyW (by decide) (by decide) (by decide)
    (Or.inl (by decide))

/- ## Claim C2 -/

/-- C2: in a run where StagingLoader and DimensionMerger succeed and the
critical FactMerger phase fails, the orchestrator reports run failure, the
fact table is exactly as before the run (the fact-merge transaction is
rolled back), the dimension table keeps the already-committed channel
merge, and AggregateRefresher and StagingCleaner are never invoked. -/
theorem c2_critical_fact_failure_aborts
    (stage : StageFiles) (today now : String) (fails : Phase → Bool) (w : Warehouse)
    (h1 : fails .stagingP = false) (h2 : fails .channelsP = false)
    (h3 : fails .factsP = true) :
    (load_todays_data stage today now true fails w).success = false
    ∧ (load_todays_data stage today now true fails w).state.facts = w.facts
    ∧ (load_todays_data stage today now true fails w).state.dims =
        dimMerge (pickLatest (flattenChannels stage.channelFiles)) today now w.dims
    ∧ (load_todays_data stage today now true fails w).invoked =
        [.stagingP, .channelsP, .factsP]
    ∧ Phase.aggsP ∉ (load_todays_data stage today now true fails w).invoked
    ∧ Phase.cleanupP ∉ (load_todays_data stage today now true fails w).invoked := by
  simp [load_todays_data, h1, h2, h3, load_channels, load_videos_to_staging]

/-- Witness for C2: a concrete run in which only FactMerger fails. -/
theorem c2_witness :
    (load_todays_data demoStage "2026-10-12" "T" true
        (fun p => p == Phase.factsP) emptyW).success = false
    ∧ (load_todays_data demoStage "2026-10-12" "T" true
        (fun p => p == Phase.factsP) emptyW).state.facts = emptyW.facts
    ∧ (load_todays_data demoStage "2026-10-12" "T" true
        (fun p => p == Phase.factsP) emptyW).state.dims =
        dimMerge (pickLatest (flattenChannels demoStage.channelFiles))
          "2026-10-12" "T" emptyW.dims
    ∧ (load_todays_data demoStage "2026-10-12" "T" true
        (fun p => p == Phase.factsP) emptyW).invoked =
        [.stagingP, .channelsP, .factsP]
    ∧ Phase.aggsP ∉ (load_todays_data demoStage "2026-10-12" "T" true
        (fun p => p == Phase.factsP) emptyW).invoked
    ∧ Phase.cleanupP ∉ (load_todays_data demoStage "2026-10-12" "T" true
        (fun p => p == Phase.factsP) emptyW).invoked :=
  c2_critical_fact_failure_aborts demoStage "2026-10-12" "T"
    (fun p => p == Phase.factsP) emptyW (by decide) (by decide) (by decide)
